import Mathlib

/-!
Verification of the trading-bot decision-and-execution core of this
repository (tradebot.py, tradebot2.py, tradebot_2.py).

Shallow embedding conventions:
* Python floats are modelled as exact rationals (ℚ).  Where the Python code
  relies on IEEE special values (NaN / infinity), the embedding makes the
  outcome explicit: a pandas value that would be NaN is an Option that is
  none, a comparison against NaN is false, and a division pos/0 that would
  be +infinity is folded into the branch it produces (RSI = 100).
* the CSV journal file is modelled as Option (List TradeSignalRec): none is
  an absent file; some rows is a file whose single header row (written
  exactly once, on creation) is represented by the some wrapper itself,
  since pandas read_csv consumes exactly that first row as the header.
* external collaborators (Binance client, clock, disk) enter as explicit
  parameters: balances, prices, symbol filters, the current time, and the
  outcome of a disk write.
-/

/-- Python floored modulus a % b for b ≠ 0 (used by tradebot.py line 184:
quantity % step_size). -/
def pyFloorMod (a b : ℚ) : ℚ := a - b * ⌊a / b⌋

/-- Python round-half-to-even of a rational to an integer (the semantics of
the builtin round). -/
def roundHalfEven (x : ℚ) : ℤ :=
  if x - ⌊x⌋ < 1/2 then ⌊x⌋
  else if x - ⌊x⌋ > 1/2 then ⌊x⌋ + 1
  else if ⌊x⌋ % 2 = 0 then ⌊x⌋ else ⌊x⌋ + 1

/-- Python round(x, p) for a non-negative number of decimal places p. -/
def pyRound (x : ℚ) (p : ℕ) : ℚ := (roundHalfEven (x * 10 ^ p) : ℚ) / 10 ^ p

/-- Consecutive differences of a list: the pandas Series.diff values with the
leading NaN dropped (tradebot.py line 81: delta = df close .diff()). -/
def diffs : List ℚ → List ℚ
  | [] => []
  | [_] => []
  | a :: b :: rest => (b - a) :: diffs (b :: rest)

/-- Per-element gain: delta.where(delta > 0, 0) (tradebot.py line 82). -/
def gainPart (d : ℚ) : ℚ := if d > 0 then d else 0

/-- Per-element loss: -delta.where(delta < 0, 0) (tradebot.py line 83). -/
def lossPart (d : ℚ) : ℚ := if d < 0 then -d else 0

/-- Value of pandas rolling(window=w).mean() at the last index of a series
with no NaN entries: the mean of the last w entries, none when the series is
shorter than w (or w = 0, where pandas raises). -/
def rolling_mean_last (w : ℕ) (xs : List ℚ) : Option ℚ :=
  if w = 0 then none
  else if xs.length < w then none
  else some ((xs.reverse.take w).sum / (w : ℚ))

namespace Tradebot

/-- Trading parameter bollinger_std_dev = 1.5 (tradebot.py line 36). -/
def bollinger_std_dev : ℚ := 3/2

/-- Trading parameter cooldown_period = 3600 (tradebot.py line 37). -/
def cooldown_period : ℚ := 3600

/-- Gain series of tradebot.py line 82: delta.where(delta > 0, 0).  The
pandas diff leaves NaN at index 0; NaN > 0 is False, so where replaces that
entry by 0.  The embedding therefore prepends 0 to the mapped differences of
a non-empty series. -/
def gain_series (closes : List ℚ) : List ℚ :=
  match closes with
  | [] => []
  | _ :: _ => 0 :: (diffs closes).map gainPart

/-- Loss series of tradebot.py line 83: -delta.where(delta < 0, 0), with the
same treatment of the leading NaN as gain_series. -/
def loss_series (closes : List ℚ) : List ℚ :=
  match closes with
  | [] => []
  | _ :: _ => 0 :: (diffs closes).map lossPart

/-- Average gain at the last bar: gain.rolling(window).mean() (tradebot.py
line 82). -/
def avg_gain (closes : List ℚ) (window : ℕ) : Option ℚ :=
  rolling_mean_last window (gain_series closes)

/-- Average loss at the last bar: loss.rolling(window).mean() (tradebot.py
line 83). -/
def avg_loss (closes : List ℚ) (window : ℕ) : Option ℚ :=
  rolling_mean_last window (loss_series closes)

/-- RSI of the last bar, calculate_rsi of tradebot.py lines 79-86 (window
defaults to 7): rs = gain / loss and RSI = 100 - 100 / (1 + rs).  Float
semantics of the division are made explicit: loss > 0 gives the exact
formula; loss = 0 with gain > 0 gives rs = +inf hence RSI = 100; loss = 0
with gain = 0 gives rs = NaN hence an undefined RSI (none). -/
def calculate_rsi (closes : List ℚ) (window : ℕ) : Option ℚ :=
  match avg_gain closes window, avg_loss closes window with
  | some g, some l =>
    if l ≠ 0 then some (100 - 100 / (1 + g / l))
    else if g ≠ 0 then some 100
    else none
  | _, _ => none

/-- Indicator values of the most recent bar, each none when the rolling
window was not yet full (pandas NaN): SMA and STD from
calculate_bollinger_bands (lines 73-74), RSI from calculate_rsi. -/
structure IndicatorSnapshot where
  sma : Option ℚ
  std : Option ℚ
  rsi : Option ℚ

/-- upper_band = SMA + STD * bollinger_std_dev (tradebot.py line 75);
NaN-propagating. -/
def upper_band (s : IndicatorSnapshot) : Option ℚ :=
  match s.sma, s.std with
  | some a, some d => some (a + d * bollinger_std_dev)
  | _, _ => none

/-- lower_band = SMA - STD * bollinger_std_dev (tradebot.py line 76);
NaN-propagating. -/
def lower_band (s : IndicatorSnapshot) : Option ℚ :=
  match s.sma, s.std with
  | some a, some d => some (a - d * bollinger_std_dev)
  | _, _ => none

/-- check_buy_signal (tradebot.py lines 88-106): close < lower_band and
RSI < 40.  A comparison against a NaN value (band or RSI undefined) is False
in Python, hence false here. -/
def check_buy_signal (close : ℚ) (s : IndicatorSnapshot) : Bool :=
  match lower_band s, s.rsi with
  | some lb, some r => decide (close < lb) && decide (r < 40)
  | _, _ => false

/-- check_sell_signal (tradebot.py lines 108-125): close > upper_band and
RSI > 60, with the same NaN-is-false comparison semantics. -/
def check_sell_signal (close : ℚ) (s : IndicatorSnapshot) : Bool :=
  match upper_band s, s.rsi with
  | some ub, some r => decide (close > ub) && decide (r > 60)
  | _, _ => false

/-- Buy / Sell / Hold decision alphabet of the spec. -/
inductive Decision where
  | Buy : Decision
  | Sell : Decision
  | Hold : Decision
deriving DecidableEq

/-- Single decision derived from the two signal checks the way trade()
consumes them (tradebot.py lines 288-293): the buy branch is examined first,
neither signal means no order (Hold). -/
def evaluate (close : ℚ) (s : IndicatorSnapshot) : Decision :=
  if check_buy_signal close s then Decision.Buy
  else if check_sell_signal close s then Decision.Sell
  else Decision.Hold

/-- Per-symbol mutable state last_buy_time of tradebot.py line 38,
initialised to 0 for every symbol. -/
structure BuyState where
  last_buy_time : ℚ
deriving DecidableEq

/-- Quantity computed by execute_buy_order (tradebot.py lines 174-184):
raw = usdt_amount / price, then
quantity = round(raw - raw % step_size, precision) where
precision = abs(int(log10(step_size))) is taken as a parameter (it is
derived from the float log10, outside exact arithmetic). -/
def buy_quantity (usdt_amt price step_size : ℚ) (precision : ℕ) : ℚ :=
  pyRound (usdt_amt / price - pyFloorMod (usdt_amt / price) step_size) precision

/-- Control flow of execute_buy_order (tradebot.py lines 144-200) with the
external collaborators supplied as values: the current time, the fetched
USDT balance, the ticker price and the cached symbol filters.  Returns
whether a market-buy order was submitted, together with the state after the
call.  The source never assigns last_buy_time, so the returned state is the
input state in every branch. -/
def execute_buy_order (st : BuyState) (now usdt_balance usdt_amt price min_qty step_size : ℚ)
    (precision : ℕ) : Bool × BuyState :=
  if now - st.last_buy_time < cooldown_period then (false, st)
  else if usdt_balance < usdt_amt then (false, st)
  else if buy_quantity usdt_amt price step_size precision < min_qty then (false, st)
  else (true, st)

/-- round_down of tradebot.py lines 202-205: floor at a fixed number of
decimal places. -/
def round_down (quantity : ℚ) (precision : ℕ) : ℚ :=
  (⌊quantity * 10 ^ precision⌋ : ℚ) / 10 ^ precision

/-- Quantity submitted by execute_sell_order (tradebot.py lines 210-260), or
none when the order is aborted.  The branches mirror the source: the
cooldown gate (line 214), the balance check (line 229), then
adj_quantity = round_down(quantity, precision) is computed (line 241) but
never used again; the minimum-quantity check (line 246) and the market-sell
call (line 252) both use the raw quantity.  The precision of line 240 is
derived from float internals (as_integer_ratio) and is taken as a
parameter. -/
def execute_sell_order (last_buy_time now asset_balance quantity min_qty : ℚ)
    (precision : ℕ) : Option ℚ :=
  if now - last_buy_time < cooldown_period then none
  else if asset_balance < quantity then none
  else
    let adj_quantity := round_down quantity precision
    if quantity < min_qty then none
    else some quantity

end Tradebot

/-- safe_api_call (tradebot.py lines 43-52 and verbatim again tradebot2.py
lines 93-102).  The wrapped call is a function from the attempt number
(0-based) to its outcome: some value on success, none when it raises.  The
result pairs the returned value (none models the final return None after the
loop) with the list of back-off sleeps performed, in order; the source
sleeps 2 ^ i seconds after the failure of attempt i, for every failed
attempt including the last. -/
def safeApiCallGo {α : Type} (f : ℕ → Option α) : ℕ → ℕ → Option α × List ℕ
  | _, 0 => (none, [])
  | i, n + 1 =>
    match f i with
    | some v => (some v, [])
    | none =>
      let p := safeApiCallGo f (i + 1) n
      (p.1, 2 ^ i :: p.2)

/-- Entry point of the retry loop: for i in range(5). -/
def safe_api_call {α : Type} (f : ℕ → Option α) : Option α × List ℕ :=
  safeApiCallGo f 0 5

namespace Tradebot2

/-- One row of the trade-signal CSV (tradebot2.py line 86): timestamp,
symbol, signal_type, price. -/
structure TradeSignalRec where
  timestamp : String
  symbol : String
  signal_type : String
  price : ℚ
deriving DecidableEq

/-- State of trade_signals.csv: none when the file does not exist; some rows
when it exists, the mandatory single header row being represented by the
some wrapper (it is written exactly when the file is created, line 83). -/
abbrev JournalFile := Option (List TradeSignalRec)

/-- save_trade_signal (tradebot2.py lines 52-91).  The validation of line 65
rejects any falsy field (empty string, zero price) by raising ValueError;
any exception is logged and re-raised (line 91), so the caller receives an
Except.  Otherwise the row is appended, the header being written first when
the file did not exist. -/
def save_trade_signal (file : JournalFile) (r : TradeSignalRec) :
    Except String JournalFile :=
  if r.symbol = "" ∨ r.signal_type = "" ∨ r.price = 0 ∨ r.timestamp = "" then
    Except.error "All parameters must be non-empty."
  else
    match file with
    | none => Except.ok (some [r])
    | some rows => Except.ok (some (rows ++ [r]))

/-- Sequential persistence of a batch of records, stopping at the first
failure. -/
def saveAll (file : JournalFile) : List TradeSignalRec → Except String JournalFile
  | [] => Except.ok file
  | r :: rs =>
    match save_trade_signal file r with
    | Except.ok file2 => saveAll file2 rs
    | Except.error m => Except.error m

/-- load_trade_signals (tradebot2.py lines 291-299): an absent file loads as
an empty frame; otherwise pandas reads the rows under the header and the
frame is filtered to the given symbol, preserving order. -/
def load_trade_signals (file : JournalFile) (symbol : String) : List TradeSignalRec :=
  match file with
  | none => []
  | some rows => rows.filter (fun r => r.symbol = symbol)

/-- get_step_size + execute_sell_order of tradebot2.py lines 255-288: the
quantity is floored to the step grid, quantity = floor(q / step) * step, and
the order is aborted when the result is 0.  Returns the submitted quantity
or none. -/
def execute_sell_order (quantity step_size : ℚ) : Option ℚ :=
  let q := (⌊quantity / step_size⌋ : ℚ) * step_size
  if q = 0 then none else some q

/-- Outcome of the external collaborators for one symbol in one cycle of
trade() (tradebot2.py lines 332-351): whether get_historical_data returned
data (false models the None of exhausted retries), the two pure signal
booleans, and the outcomes of the two save_trade_signal calls (an
Except.error models the re-raised exception of a failed persist; the
execute_buy_order / execute_sell_order calls themselves catch internally and
never raise). -/
structure SymEnv where
  fetch_ok : Bool
  buy_signal : Bool
  sell_signal : Bool
  save_buy : Except String Unit
  save_sell : Except String Unit

/-- Body of the per-symbol iteration of trade() (tradebot2.py lines
334-351): a fetch failure is an explicit continue; otherwise the buy branch
then the sell branch run, and an exception raised by save_trade_signal
propagates out of the iteration because the loop body has no try / except
around it. -/
def trade_symbol (e : SymEnv) : Except String Unit :=
  if e.fetch_ok = false then Except.ok ()
  else
    match (if e.buy_signal then e.save_buy else Except.ok ()) with
    | Except.error m => Except.error m
    | Except.ok _ =>
      match (if e.sell_signal then e.save_sell else Except.ok ()) with
      | Except.error m => Except.error m
      | Except.ok _ => Except.ok ()

/-- trade() (tradebot2.py lines 332-351) over the symbol list: returns the
symbols whose iteration completed, in order, together with the message of
the first uncaught exception if one was raised.  An exception aborts the
loop: no later symbol is processed. -/
def trade : List (String × SymEnv) → List String × Option String
  | [] => ([], none)
  | (s, e) :: rest =>
    match trade_symbol e with
    | Except.ok _ =>
      let p := trade rest
      (s :: p.1, p.2)
    | Except.error m => ([], some m)

end Tradebot2

namespace Tradebot_2

/-- Trading parameter stop_loss_pct = 0.02 (tradebot_2.py line 20). -/
def stop_loss_pct : ℚ := 1/50

/-- Decision taken by one iteration of run_bot (tradebot_2.py lines 69-84):
Buy when rsi < 30 and price > ema, else Sell when rsi > 70 or price < ema,
else Hold.  The iteration reads only the latest rsi, close price and ema; no
entry price is stored or consulted. -/
def run_bot_decision (rsi price ema : ℚ) : Tradebot.Decision :=
  if rsi < 30 ∧ price > ema then Tradebot.Decision.Buy
  else if rsi > 70 ∨ price < ema then Tradebot.Decision.Sell
  else Tradebot.Decision.Hold

/-- Stop-loss price computed (and only printed) inside the Buy branch of
run_bot (tradebot_2.py line 75). -/
def stop_loss_price (price : ℚ) : ℚ := price * (1 - stop_loss_pct)

end Tradebot_2

/-- Claim C1 (code bug): at the concrete input quantity = 0.3,
min_qty = 0.1, step_size = 0.25 (precision 4), balance = 1, cooldown
inactive, execute_sell_order of tradebot.py submits the raw quantity 0.3 to
the market-sell call, and 0.3 is not a non-negative integer multiple of the
step size 0.25 — the step-adjusted quantity is computed (adj_quantity) but
never passed on, refuting the claim that every submitted quantity is a
multiple of the step size and equals the step-adjusted quantity. -/
theorem C1_sell_submits_raw_quantity :
    Tradebot.execute_sell_order 0 7200 1 (3/10) (1/10) 4 = some (3/10)
    ∧ ¬ ∃ k : ℕ, (3/10 : ℚ) = (k : ℚ) * (1/4) := by
  constructor
  · norm_num [Tradebot.execute_sell_order, Tradebot.cooldown_period]
  · rintro ⟨k, hk⟩
    have h : (5 * k : ℚ) = 6 := by
      field_simp at hk
      linarith
    have h2 : (5 * k : ℕ) = 6 := by exact_mod_cast h
    omega

/-- Claim C3 (code bug): with last_buy_time at its initial value 0 and
cooldown_period = 3600, two buy-eligible cycles at t = 7200 and t = 7260
(60 seconds apart, well inside the cooldown window) each submit a buy order,
because execute_buy_order never assigns last_buy_time: the state returned by
the first confirmed buy is unchanged, so the cooldown gate cannot engage for
the second. -/
theorem C3_cooldown_never_engages :
    Tradebot.execute_buy_order (Tradebot.BuyState.mk 0) 7200 100 20 20 (1/10) (1/10) 1
      = (true, Tradebot.BuyState.mk 0)
    ∧ (Tradebot.execute_buy_order
        (Tradebot.execute_buy_order (Tradebot.BuyState.mk 0) 7200 100 20 20 (1/10) (1/10) 1).2
        7260 100 20 20 (1/10) (1/10) 1).1 = true
    ∧ (7260 : ℚ) - 7200 < Tradebot.cooldown_period := by
  refine ⟨?_, ?_, by norm_num [Tradebot.cooldown_period]⟩ <;>
    norm_num [Tradebot.execute_buy_order, Tradebot.buy_quantity, pyRound, pyFloorMod,
      roundHalfEven, Tradebot.cooldown_period]

/-- Claim C2 (counterexample): with entryPrice = 100 and
stop_loss_pct = 0.02 the latest close 94 is below the stop-loss level 98,
yet the decision taken by run_bot of tradebot_2.py at rsi = 25, ema = 90 is
Buy, not the Sell the claim requires: the code performs no stop-loss check
and keeps no entry price. -/
theorem C2_no_stop_loss_check :
    (94 : ℚ) < Tradebot_2.stop_loss_price 100
    ∧ Tradebot_2.run_bot_decision 25 94 90 = Tradebot.Decision.Buy
    ∧ Tradebot.Decision.Buy ≠ Tradebot.Decision.Sell := by
  refine ⟨by norm_num [Tradebot_2.stop_loss_price, Tradebot_2.stop_loss_pct], ?_, by simp⟩
  norm_num [Tradebot_2.run_bot_decision]

/-- Claim C2 (amended): tradebot_2.py keeps no entryPrice and performs no
stop-loss check; its per-cycle decision is a function of rsi, close and ema
alone, so whenever the close is below a previous entry's stop-loss level but
the ordinary evaluator's Buy condition holds (rsi < 30 and close > ema), the
resulting decision is Buy, not Sell. -/
theorem C2_amended_buy_prevails (entryPrice close ema rsi : ℚ)
    (hstop : close < entryPrice * (1 - Tradebot_2.stop_loss_pct))
    (hrsi : rsi < 30) (hema : close > ema) :
    Tradebot_2.run_bot_decision rsi close ema = Tradebot.Decision.Buy := by
  unfold Tradebot_2.run_bot_decision
  rw [if_pos]
  exact ⟨hrsi, hema⟩

/-- Witness for C2_amended_buy_prevails at entryPrice = 100, close = 94,
ema = 90, rsi = 25. -/
theorem C2_amended_witness :
    Tradebot_2.run_bot_decision 25 94 90 = Tradebot.Decision.Buy :=
  C2_amended_buy_prevails 100 94 90 25
    (by norm_num [Tradebot_2.stop_loss_pct]) (by norm_num) (by norm_num)

/-- Claim C9 (counterexample): with last_buy_time = 0 and now = 100 (inside
the cooldown window), execute_sell_order of tradebot.py submits no order,
while the identical sell outside the window (now = 7200) submits: the
cooldown gate suppresses a Sell, refuting the claim that a Sell is never
suppressed by the cooldown. -/
theorem C9_cooldown_blocks_sell :
    Tradebot.execute_sell_order 0 100 1 (3/10) (1/10) 4 = none
    ∧ Tradebot.execute_sell_order 0 7200 1 (3/10) (1/10) 4 = some (3/10)
    ∧ (100 : ℚ) - 0 < Tradebot.cooldown_period := by
  refine ⟨?_, ?_, by norm_num [Tradebot.cooldown_period]⟩ <;>
    norm_num [Tradebot.execute_sell_order, Tradebot.cooldown_period]

/-- Claim C9 (amended): in tradebot.py the cooldown gate suppresses both
sides: whenever now - last_buy_time < cooldown_period, execute_buy_order
submits no order and leaves the state unchanged, and execute_sell_order
submits no order either. -/
theorem C9_amended_cooldown_gates_both :
    (∀ (st : Tradebot.BuyState) (now usdt_balance usdt_amt price min_qty step_size : ℚ)
      (precision : ℕ),
      now - st.last_buy_time < Tradebot.cooldown_period →
      Tradebot.execute_buy_order st now usdt_balance usdt_amt price min_qty step_size precision
        = (false, st))
    ∧ (∀ (last now asset_balance quantity min_qty : ℚ) (precision : ℕ),
      now - last < Tradebot.cooldown_period →
      Tradebot.execute_sell_order last now asset_balance quantity min_qty precision = none) := by
  constructor
  · intro st now usdt_balance usdt_amt price min_qty step_size precision h
    unfold Tradebot.execute_buy_order
    rw [if_pos h]
  · intro last now asset_balance quantity min_qty precision h
    unfold Tradebot.execute_sell_order
    rw [if_pos h]

/-- Witness for C9_amended_cooldown_gates_both at last_buy_time = 0,
now = 100. -/
theorem C9_amended_witness :
    Tradebot.execute_buy_order (Tradebot.BuyState.mk 0) 100 100 20 20 (1/10) (1/10) 1
      = (false, Tradebot.BuyState.mk 0)
    ∧ Tradebot.execute_sell_order 0 200 1 (3/10) (1/10) 4 = none :=
  ⟨C9_amended_cooldown_gates_both.1 (Tradebot.BuyState.mk 0) 100 100 20 20 (1/10) (1/10) 1
      (by norm_num [Tradebot.cooldown_period]),
   C9_amended_cooldown_gates_both.2 0 200 1 (3/10) (1/10) 4
      (by norm_num [Tradebot.cooldown_period])⟩

/-- Claim C4 (counterexample): when every attempt of the wrapped call fails,
the back-off sleeps performed by safe_api_call are 2^0, 2^1, 2^2, 2^3, 2^4
seconds, so the delay taken before retry attempt 1 (the first element) is
2^0 = 1 second, not the 2^1 = 2 seconds the claim's formula baseDelay^i with
base 2 requires. -/
theorem C4_backoff_off_by_one :
    (safe_api_call (fun _ => (none : Option ℕ))).2 = [2 ^ 0, 2 ^ 1, 2 ^ 2, 2 ^ 3, 2 ^ 4]
    ∧ (2 ^ 0 : ℕ) ≠ 2 ^ 1 := by
  constructor
  · rfl
  · norm_num

/-- Helper: the retry loop performs at most n back-off sleeps when given n
remaining attempts. -/
theorem safeApiCallGo_delays_le {α : Type} (f : ℕ → Option α) :
    ∀ (n i : ℕ), (safeApiCallGo f i n).2.length ≤ n := by
  intro n
  induction n with
  | zero => intro i; simp [safeApiCallGo]
  | succ m ih =>
    intro i
    cases hf : f i with
    | some v => simp [safeApiCallGo, hf]
    | none => simpa [safeApiCallGo, hf] using Nat.succ_le_succ (ih (i + 1))

/-- Claim C4 (amended): safe_api_call makes at most 5 attempts (so at most 5
back-off sleeps); the delay before retry attempt i is 2^(i-1) seconds, i.e.
a call failing on attempts 1-4 and succeeding on attempt 5 returns the
success value after the sleeps [1, 2, 4, 8]; and on exhaustion of all 5
attempts it returns None (the CallExhausted value) to the caller after the
sleeps [1, 2, 4, 8, 16] — it never raises out of this boundary. -/
theorem C4_amended_retry_policy (f : ℕ → Option ℕ) :
    (safe_api_call f).2.length ≤ 5
    ∧ ((∀ i, i < 4 → f i = none) → ∀ v, f 4 = some v →
        safe_api_call f = (some v, [1, 2, 4, 8]))
    ∧ ((∀ i, i < 5 → f i = none) → safe_api_call f = (none, [1, 2, 4, 8, 16])) := by
  refine ⟨safeApiCallGo_delays_le f 5 0, ?_, ?_⟩
  · intro h v hv
    norm_num [safe_api_call, safeApiCallGo,
      h 0 (by norm_num), h 1 (by norm_num), h 2 (by norm_num), h 3 (by norm_num), hv]
  · intro h
    norm_num [safe_api_call, safeApiCallGo, h 0 (by norm_num), h 1 (by norm_num),
      h 2 (by norm_num), h 3 (by norm_num), h 4 (by norm_num)]

/-- Witness for C4_amended_retry_policy: a call failing on attempts 1-4 and
succeeding on attempt 5 returns the success value 37 with back-off sleeps
[1, 2, 4, 8]. -/
theorem C4_amended_witness :
    safe_api_call (fun i => if i = 4 then some 37 else (none : Option ℕ))
      = (some 37, [1, 2, 4, 8]) :=
  (C4_amended_retry_policy _).2.1 (by intro i hi; interval_cases i <;> rfl) 37 rfl

/-- Claim C5 (counterexample): in tradebot2.py a journal-persist failure for
the first symbol (save_trade_signal re-raises) propagates out of the
per-symbol loop of trade(), so the second symbol is never processed — the
same second symbol alone processes fine.  This refutes the claim that every
per-symbol failure, including a journal persist failure, is caught at the
per-symbol boundary. -/
theorem C5_journal_failure_aborts_cycle :
    Tradebot2.trade
      [("ADAUSDT", Tradebot2.SymEnv.mk true true false (Except.error "disk full") (Except.ok ())),
       ("SOLUSDT", Tradebot2.SymEnv.mk true false false (Except.ok ()) (Except.ok ()))]
      = ([], some "disk full")
    ∧ Tradebot2.trade
      [("SOLUSDT", Tradebot2.SymEnv.mk true false false (Except.ok ()) (Except.ok ()))]
      = (["SOLUSDT"], none) := by
  constructor <;> rfl

/-- Claim C5 (amended): only a data-fetch failure is isolated at the
per-symbol boundary of trade() in tradebot2.py (the symbol is skipped and
the loop continues with the rest); any raised exception — in particular a
re-raised journal-persist failure — propagates out of the loop, aborting the
processing of every remaining symbol for that cycle (and, the top-level loop
having no guard, terminating the process). -/
theorem C5_amended_isolation :
    (∀ (s : String) (e : Tradebot2.SymEnv) (rest : List (String × Tradebot2.SymEnv)),
      e.fetch_ok = false →
      Tradebot2.trade ((s, e) :: rest)
        = (s :: (Tradebot2.trade rest).1, (Tradebot2.trade rest).2))
    ∧ (∀ (s : String) (e : Tradebot2.SymEnv) (rest : List (String × Tradebot2.SymEnv))
        (m : String),
      Tradebot2.trade_symbol e = Except.error m →
      Tradebot2.trade ((s, e) :: rest) = ([], some m)) := by
  constructor
  · intro s e rest h
    simp [Tradebot2.trade, Tradebot2.trade_symbol, h]
  · intro s e rest m h
    simp [Tradebot2.trade, h]

/-- Witness for C5_amended_isolation: a symbol whose buy-side journal write
raises aborts the cycle with that exception. -/
theorem C5_amended_witness :
    Tradebot2.trade
      [("ADAUSDT", Tradebot2.SymEnv.mk true true false (Except.error "boom") (Except.ok ()))]
      = ([], some "boom") :=
  C5_amended_isolation.2 "ADAUSDT"
    (Tradebot2.SymEnv.mk true true false (Except.error "boom") (Except.ok ())) [] "boom" rfl

/-- Claim C8 (counterexample): a TradeSignal record whose price is 0 fails
the truthiness validation of save_trade_signal (not all([...])), which
raises instead of appending; the journal is unchanged and reloading yields
no record, so the round trip does not reproduce this 1-record sequence. -/
theorem C8_zero_price_record_not_persisted :
    Tradebot2.save_trade_signal none
        (Tradebot2.TradeSignalRec.mk "2025-01-01 00:00:00" "BTCUSDT" "BUY" 0)
      = Except.error "All parameters must be non-empty."
    ∧ Tradebot2.load_trade_signals none "BTCUSDT" = [] := by
  constructor
  · simp [Tradebot2.save_trade_signal]
  · rfl

/-- Helper: saving a batch of records with truthy fields onto an existing
journal file appends them in order. -/
theorem saveAll_append (rs : List Tradebot2.TradeSignalRec)
    (hv : ∀ r ∈ rs, r.symbol ≠ "" ∧ r.signal_type ≠ "" ∧ r.price ≠ 0 ∧ r.timestamp ≠ "") :
    ∀ rows : List Tradebot2.TradeSignalRec,
      Tradebot2.saveAll (some rows) rs = Except.ok (some (rows ++ rs)) := by
  induction rs with
  | nil => intro rows; simp [Tradebot2.saveAll]
  | cons r rs ih =>
    intro rows
    obtain ⟨h1, h2, h3, h4⟩ := hv r (by simp)
    have hrest : ∀ x ∈ rs, x.symbol ≠ "" ∧ x.signal_type ≠ "" ∧ x.price ≠ 0 ∧ x.timestamp ≠ "" :=
      fun x hx => hv x (by simp [hx])
    have hcond : ¬(r.symbol = "" ∨ r.signal_type = "" ∨ r.price = 0 ∨ r.timestamp = "") := by
      simp [h1, h2, h3, h4]
    simp [Tradebot2.saveAll, Tradebot2.save_trade_signal, hcond, ih hrest]

/-- Claim C8 (amended): for every sequence of TradeSignal records whose
fields are all truthy (non-empty strings, nonzero price), appending them to
an initially absent journal succeeds, and reloading the journal filtered to
any symbol reproduces exactly that symbol's appended records in append
order. -/
theorem C8_amended_roundtrip (rs : List Tradebot2.TradeSignalRec) (sym : String)
    (hv : ∀ r ∈ rs, r.symbol ≠ "" ∧ r.signal_type ≠ "" ∧ r.price ≠ 0 ∧ r.timestamp ≠ "") :
    ∃ file, Tradebot2.saveAll none rs = Except.ok file
      ∧ Tradebot2.load_trade_signals file sym
          = rs.filter (fun r => r.symbol = sym) := by
  cases rs with
  | nil => exact ⟨none, by simp [Tradebot2.saveAll], by simp [Tradebot2.load_trade_signals]⟩
  | cons r rs =>
    obtain ⟨h1, h2, h3, h4⟩ := hv r (by simp)
    have hrest : ∀ x ∈ rs, x.symbol ≠ "" ∧ x.signal_type ≠ "" ∧ x.price ≠ 0 ∧ x.timestamp ≠ "" :=
      fun x hx => hv x (by simp [hx])
    refine ⟨some (r :: rs), ?_, by simp [Tradebot2.load_trade_signals]⟩
    have hcond : ¬(r.symbol = "" ∨ r.signal_type = "" ∨ r.price = 0 ∨ r.timestamp = "") := by
      simp [h1, h2, h3, h4]
    simp [Tradebot2.saveAll, Tradebot2.save_trade_signal, hcond, saveAll_append rs hrest]

/-- Witness for C8_amended_roundtrip: three valid records over two symbols
round-trip, the load filtered to ADAUSDT returning exactly its two records
in order. -/
theorem C8_amended_witness :
    ∃ file,
      Tradebot2.saveAll none
        [Tradebot2.TradeSignalRec.mk "t1" "ADAUSDT" "BUY" 5,
         Tradebot2.TradeSignalRec.mk "t2" "SOLUSDT" "SELL" 6,
         Tradebot2.TradeSignalRec.mk "t3" "ADAUSDT" "SELL" 7] = Except.ok file
      ∧ Tradebot2.load_trade_signals file "ADAUSDT"
          = List.filter (fun r => r.symbol = "ADAUSDT")
              [Tradebot2.TradeSignalRec.mk "t1" "ADAUSDT" "BUY" 5,
               Tradebot2.TradeSignalRec.mk "t2" "SOLUSDT" "SELL" 6,
               Tradebot2.TradeSignalRec.mk "t3" "ADAUSDT" "SELL" 7] :=
  C8_amended_roundtrip _ "ADAUSDT" (by
    intro r hr
    simp only [List.mem_cons, List.not_mem_nil, or_false] at hr
    rcases hr with rfl | rfl | rfl <;>
      exact ⟨by simp, by simp, by norm_num, by simp⟩)

/-- Helper: diffs shortens a list by one. -/
theorem diffs_length (xs : List ℚ) : (diffs xs).length = xs.length - 1 := by
  induction xs with
  | nil => simp [diffs]
  | cons a t ih =>
    cases t with
    | nil => simp [diffs]
    | cons b u =>
      simp only [diffs, List.length_cons] at ih ⊢
      omega

/-- Helper: every consecutive difference of a strictly increasing series is
positive. -/
theorem diffs_pos_of_chain (xs : List ℚ) (h : List.Chain' (· < ·) xs) :
    ∀ d ∈ diffs xs, 0 < d := by
  induction xs with
  | nil => intro d hd; simp [diffs] at hd
  | cons a t ih =>
    intro d hd
    cases t with
    | nil => simp [diffs] at hd
    | cons b u =>
      rw [List.chain'_cons] at h
      simp only [diffs, List.mem_cons] at hd
      rcases hd with rfl | hd
      · linarith [h.1]
      · exact ih h.2 d hd

/-- Helper: every consecutive difference of a strictly decreasing series is
negative. -/
theorem diffs_neg_of_chain (xs : List ℚ) (h : List.Chain' (· > ·) xs) :
    ∀ d ∈ diffs xs, d < 0 := by
  induction xs with
  | nil => intro d hd; simp [diffs] at hd
  | cons a t ih =>
    intro d hd
    cases t with
    | nil => simp [diffs] at hd
    | cons b u =>
      rw [List.chain'_cons] at h
      simp only [diffs, List.mem_cons] at hd
      rcases hd with rfl | hd
      · have : b < a := h.1
        linarith
      · exact ih h.2 d hd

/-- Helper: every entry of the gain series is non-negative. -/
theorem gain_series_nonneg (closes : List ℚ) :
    ∀ x ∈ Tradebot.gain_series closes, 0 ≤ x := by
  intro x hx
  cases closes with
  | nil => simp [Tradebot.gain_series] at hx
  | cons a t =>
    simp only [Tradebot.gain_series, List.mem_cons, List.mem_map] at hx
    rcases hx with rfl | ⟨d, _, rfl⟩
    · exact le_refl 0
    · unfold gainPart
      split_ifs with h
      · linarith
      · exact le_refl 0

/-- Helper: every entry of the loss series is non-negative. -/
theorem loss_series_nonneg (closes : List ℚ) :
    ∀ x ∈ Tradebot.loss_series closes, 0 ≤ x := by
  intro x hx
  cases closes with
  | nil => simp [Tradebot.loss_series] at hx
  | cons a t =>
    simp only [Tradebot.loss_series, List.mem_cons, List.mem_map] at hx
    rcases hx with rfl | ⟨d, _, rfl⟩
    · exact le_refl 0
    · unfold lossPart
      split_ifs with h
      · linarith
      · exact le_refl 0

/-- Helper: a defined rolling mean of a non-negative series is
non-negative. -/
theorem rolling_mean_last_nonneg (w : ℕ) (xs : List ℚ) (h : ∀ x ∈ xs, 0 ≤ x)
    (m : ℚ) (hm : rolling_mean_last w xs = some m) : 0 ≤ m := by
  unfold rolling_mean_last at hm
  split_ifs at hm
  · have hq := Option.some.inj hm
    rw [← hq]
    apply div_nonneg
    · exact List.sum_nonneg fun x hx =>
        h x (List.mem_reverse.1 (List.take_subset _ _ hx))
    · positivity

/-- Helper: the rolling mean of an all-zero series of sufficient length is
zero. -/
theorem rolling_mean_last_eq_zero (w : ℕ) (xs : List ℚ) (hw : w ≠ 0)
    (hlen : w ≤ xs.length) (h0 : ∀ x ∈ xs, x = 0) :
    rolling_mean_last w xs = some 0 := by
  unfold rolling_mean_last
  rw [if_neg hw, if_neg (by omega)]
  have hs : (xs.reverse.take w).sum = 0 :=
    List.sum_eq_zero fun x hx => h0 x (List.mem_reverse.1 (List.take_subset _ _ hx))
  rw [hs]
  norm_num

/-- Helper: on a strictly increasing series long enough to fill the RSI
window, the average loss at the last bar is 0. -/
theorem avg_loss_increasing (closes : List ℚ) (h8 : 8 ≤ closes.length)
    (hc : List.Chain' (· < ·) closes) : Tradebot.avg_loss closes 7 = some 0 := by
  have hne : closes ≠ [] := by
    intro h
    rw [h] at h8
    simp at h8
  have hls : Tradebot.loss_series closes = 0 :: (diffs closes).map lossPart := by
    cases closes with
    | nil => exact absurd rfl hne
    | cons a t => rfl
  apply rolling_mean_last_eq_zero 7 _ (by norm_num)
  · rw [hls]
    simp only [List.length_cons, List.length_map, diffs_length]
    omega
  · intro x hx
    rw [hls] at hx
    simp only [List.mem_cons, List.mem_map] at hx
    rcases hx with rfl | ⟨d, hd, rfl⟩
    · rfl
    · have hdp := diffs_pos_of_chain closes hc d hd
      unfold lossPart
      rw [if_neg (by linarith)]

/-- Helper: on a strictly decreasing series long enough to fill the RSI
window, the average gain at the last bar is 0. -/
theorem avg_gain_decreasing (closes : List ℚ) (h8 : 8 ≤ closes.length)
    (hc : List.Chain' (· > ·) closes) : Tradebot.avg_gain closes 7 = some 0 := by
  have hne : closes ≠ [] := by
    intro h
    rw [h] at h8
    simp at h8
  have hgs : Tradebot.gain_series closes = 0 :: (diffs closes).map gainPart := by
    cases closes with
    | nil => exact absurd rfl hne
    | cons a t => rfl
  apply rolling_mean_last_eq_zero 7 _ (by norm_num)
  · rw [hgs]
    simp only [List.length_cons, List.length_map, diffs_length]
    omega
  · intro x hx
    rw [hgs] at hx
    simp only [List.mem_cons, List.mem_map] at hx
    rcases hx with rfl | ⟨d, hd, rfl⟩
    · rfl
    · have hdn := diffs_neg_of_chain closes hc d hd
      unfold gainPart
      rw [if_neg (by linarith)]

/-- Helper: on a strictly increasing series long enough to fill the RSI
window, the average gain at the last bar is defined and positive. -/
theorem avg_gain_increasing (closes : List ℚ) (h8 : 8 ≤ closes.length)
    (hc : List.Chain' (· < ·) closes) :
    ∃ g, Tradebot.avg_gain closes 7 = some g ∧ 0 < g := by
  have hne : closes ≠ [] := by
    intro h
    rw [h] at h8
    simp at h8
  have hgs : Tradebot.gain_series closes = 0 :: (diffs closes).map gainPart := by
    cases closes with
    | nil => exact absurd rfl hne
    | cons a t => rfl
  have hmlen : ((diffs closes).map gainPart).length = closes.length - 1 := by
    simp [diffs_length]
  have hwin : (Tradebot.gain_series closes).reverse.take 7
      = ((diffs closes).map gainPart).reverse.take 7 := by
    rw [hgs, List.reverse_cons, List.take_append_of_le_length]
    rw [List.length_reverse, hmlen]
    omega
  have hpos : ∀ x ∈ ((diffs closes).map gainPart).reverse.take 7, 0 < x := by
    intro x hx
    have hx2 : x ∈ (diffs closes).map gainPart :=
      List.mem_reverse.1 (List.take_subset _ _ hx)
    obtain ⟨d, hd, rfl⟩ := List.mem_map.1 hx2
    have hdp := diffs_pos_of_chain closes hc d hd
    unfold gainPart
    rw [if_pos hdp]
    exact hdp
  have hlen7 : (((diffs closes).map gainPart).reverse.take 7).length = 7 := by
    rw [List.length_take, List.length_reverse, hmlen]
    omega
  refine ⟨((Tradebot.gain_series closes).reverse.take 7).sum / 7, ?_, ?_⟩
  · unfold Tradebot.avg_gain rolling_mean_last
    rw [if_neg (by norm_num), if_neg]
    · norm_num
    · rw [hgs]
      simp only [List.length_cons, List.length_map, diffs_length]
      omega
  · rw [hwin]
    apply div_pos
    · exact List.sum_pos _ hpos (List.length_pos.1 (by rw [hlen7]; norm_num))
    · norm_num

/-- Helper: on a strictly decreasing series long enough to fill the RSI
window, the average loss at the last bar is defined and positive. -/
theorem avg_loss_decreasing (closes : List ℚ) (h8 : 8 ≤ closes.length)
    (hc : List.Chain' (· > ·) closes) :
    ∃ l, Tradebot.avg_loss closes 7 = some l ∧ 0 < l := by
  have hne : closes ≠ [] := by
    intro h
    rw [h] at h8
    simp at h8
  have hls : Tradebot.loss_series closes = 0 :: (diffs closes).map lossPart := by
    cases closes with
    | nil => exact absurd rfl hne
    | cons a t => rfl
  have hmlen : ((diffs closes).map lossPart).length = closes.length - 1 := by
    simp [diffs_length]
  have hwin : (Tradebot.loss_series closes).reverse.take 7
      = ((diffs closes).map lossPart).reverse.take 7 := by
    rw [hls, List.reverse_cons, List.take_append_of_le_length]
    rw [List.length_reverse, hmlen]
    omega
  have hpos : ∀ x ∈ ((diffs closes).map lossPart).reverse.take 7, 0 < x := by
    intro x hx
    have hx2 : x ∈ (diffs closes).map lossPart :=
      List.mem_reverse.1 (List.take_subset _ _ hx)
    obtain ⟨d, hd, rfl⟩ := List.mem_map.1 hx2
    have hdn := diffs_neg_of_chain closes hc d hd
    unfold lossPart
    rw [if_pos hdn]
    linarith
  have hlen7 : (((diffs closes).map lossPart).reverse.take 7).length = 7 := by
    rw [List.length_take, List.length_reverse, hmlen]
    omega
  refine ⟨((Tradebot.loss_series closes).reverse.take 7).sum / 7, ?_, ?_⟩
  · unfold Tradebot.avg_loss rolling_mean_last
    rw [if_neg (by norm_num), if_neg]
    · norm_num
    · rw [hls]
      simp only [List.length_cons, List.length_map, diffs_length]
      omega
  · rw [hwin]
    apply div_pos
    · exact List.sum_pos _ hpos (List.length_pos.1 (by rw [hlen7]; norm_num))
    · norm_num

/-- Claim C6 (counterexample): on the flat 8-bar series [1,...,1] the
average loss over the window is zero, yet the RSI is not defined as 100 —
the pandas computation yields rs = 0 / 0 = NaN, so calculate_rsi is
undefined (none), refuting the clause that RSI is defined as 100 whenever
the average loss is zero. -/
theorem C6_flat_series_rsi_undefined :
    Tradebot.avg_loss [1, 1, 1, 1, 1, 1, 1, 1] 7 = some 0
    ∧ Tradebot.calculate_rsi [1, 1, 1, 1, 1, 1, 1, 1] 7 = none := by
  constructor <;>
    norm_num [Tradebot.avg_loss, Tradebot.avg_gain, Tradebot.calculate_rsi,
      Tradebot.loss_series, Tradebot.gain_series, rolling_mean_last, diffs,
      gainPart, lossPart, List.sum_cons]

/-- Claim C6 (amended): whenever calculate_rsi is defined its value lies in
[0, 100]; a strictly increasing series filling the full RSI window (length ≥
window + 1 = 8) yields RSI = 100; a strictly decreasing such series yields
RSI = 0; and whenever the average loss over the window is zero while the
average gain is nonzero, the RSI is 100 (when both averages are zero the
RSI is undefined, not 100 — see the counterexample). -/
theorem C6_amended_rsi_bounds :
    (∀ (closes : List ℚ) (w : ℕ) (x : ℚ),
      Tradebot.calculate_rsi closes w = some x → 0 ≤ x ∧ x ≤ 100)
    ∧ (∀ closes : List ℚ, 8 ≤ closes.length → List.Chain' (· < ·) closes →
        Tradebot.calculate_rsi closes 7 = some 100)
    ∧ (∀ closes : List ℚ, 8 ≤ closes.length → List.Chain' (· > ·) closes →
        Tradebot.calculate_rsi closes 7 = some 0)
    ∧ (∀ (closes : List ℚ) (w : ℕ) (g : ℚ),
        Tradebot.avg_loss closes w = some 0 → Tradebot.avg_gain closes w = some g →
        g ≠ 0 → Tradebot.calculate_rsi closes w = some 100) := by
  refine ⟨?_, ?_, ?_, ?_⟩
  · intro closes w x hx
    unfold Tradebot.calculate_rsi at hx
    cases hg : Tradebot.avg_gain closes w with
    | none => rw [hg] at hx; simp at hx
    | some g =>
      cases hl : Tradebot.avg_loss closes w with
      | none => rw [hg, hl] at hx; simp at hx
      | some l =>
        rw [hg, hl] at hx
        have hx2 : (if l ≠ 0 then some (100 - 100 / (1 + g / l))
            else if g ≠ 0 then some (100 : ℚ) else none) = some x := hx
        by_cases hl0 : l = 0
        · rw [if_neg (not_not_intro hl0)] at hx2
          by_cases hg0 : g = 0
          · rw [if_neg (not_not_intro hg0)] at hx2
            exact Option.noConfusion hx2
          · rw [if_pos hg0] at hx2
            have := Option.some.inj hx2
            rw [← this]
            norm_num
        · rw [if_pos hl0] at hx2
          have hval := Option.some.inj hx2
          rw [← hval]
          have hgnn : 0 ≤ g :=
            rolling_mean_last_nonneg w _ (gain_series_nonneg closes) g hg
          have hlnn : 0 ≤ l :=
            rolling_mean_last_nonneg w _ (loss_series_nonneg closes) l hl
          have hdnn : 0 ≤ g / l := div_nonneg hgnn hlnn
          have h1 : (1 : ℚ) ≤ 1 + g / l := by linarith
          have hq1 : 0 < 100 / (1 + g / l) := by positivity
          have hq2 : 100 / (1 + g / l) ≤ 100 := div_le_self (by norm_num) h1
          constructor <;> linarith
  · intro closes h8 hc
    obtain ⟨g, hg, hgpos⟩ := avg_gain_increasing closes h8 hc
    have hl := avg_loss_increasing closes h8 hc
    unfold Tradebot.calculate_rsi
    rw [hg, hl]
    simp [hgpos.ne']
  · intro closes h8 hc
    obtain ⟨l, hl, hlpos⟩ := avg_loss_decreasing closes h8 hc
    have hg := avg_gain_decreasing closes h8 hc
    unfold Tradebot.calculate_rsi
    rw [hg, hl]
    simp [hlpos.ne']
  · intro closes w g hl hg hgne
    unfold Tradebot.calculate_rsi
    rw [hg, hl]
    simp [hgne]

/-- Witness for C6_amended_rsi_bounds: the strictly increasing 8-bar series
1..8 has RSI 100, the strictly decreasing one 8..1 has RSI 0. -/
theorem C6_amended_witness :
    Tradebot.calculate_rsi [1, 2, 3, 4, 5, 6, 7, 8] 7 = some 100
    ∧ Tradebot.calculate_rsi [8, 7, 6, 5, 4, 3, 2, 1] 7 = some 0 :=
  ⟨C6_amended_rsi_bounds.2.1 [1, 2, 3, 4, 5, 6, 7, 8] (by norm_num)
      (by norm_num [List.chain'_cons]),
   C6_amended_rsi_bounds.2.2.1 [8, 7, 6, 5, 4, 3, 2, 1] (by norm_num)
      (by norm_num [List.chain'_cons])⟩

/-- Claim C7 (confirmed): the signal evaluator of tradebot.py returns Buy
exactly when the snapshot is fully defined, the close is below the lower
band (band factor 1) and the RSI is below the buy threshold 40; Sell exactly
when the snapshot is fully defined, the close is above the upper band and
the RSI is above the sell threshold 60; and Hold exactly when neither check
fires — in particular a snapshot with insufficient history (an undefined
SMA, STD or RSI) yields neither Buy nor Sell. -/
theorem C7_signal_evaluator (close : ℚ) (s : Tradebot.IndicatorSnapshot) :
    (Tradebot.check_buy_signal close s = true ↔
      ∃ a d r, s.sma = some a ∧ s.std = some d ∧ s.rsi = some r
        ∧ close < a - d * Tradebot.bollinger_std_dev ∧ r < 40)
    ∧ (Tradebot.check_sell_signal close s = true ↔
      ∃ a d r, s.sma = some a ∧ s.std = some d ∧ s.rsi = some r
        ∧ close > a + d * Tradebot.bollinger_std_dev ∧ r > 60)
    ∧ (Tradebot.evaluate close s = Tradebot.Decision.Hold ↔
      Tradebot.check_buy_signal close s = false
        ∧ Tradebot.check_sell_signal close s = false) := by
  refine ⟨?_, ?_, ?_⟩
  · obtain ⟨sa, sd, sr⟩ := s
    cases sa <;> cases sd <;> cases sr <;>
      simp [Tradebot.check_buy_signal, Tradebot.lower_band, and_assoc]
  · obtain ⟨sa, sd, sr⟩ := s
    cases sa <;> cases sd <;> cases sr <;>
      simp [Tradebot.check_sell_signal, Tradebot.upper_band, and_assoc]
  · unfold Tradebot.evaluate
    cases hb : Tradebot.check_buy_signal close s <;>
      cases hs : Tradebot.check_sell_signal close s <;> simp

/-- Claim C10 (confirmed): for a latest bar with a defined SMA and a
non-negative rolling standard deviation, the buy check and the sell check of
tradebot.py never both return true: the close cannot be at once below the
lower band and above the upper band since lower_band ≤ upper_band. -/
theorem C10_buy_sell_mutually_exclusive (a d r close : ℚ) (hd : 0 ≤ d) :
    ¬(Tradebot.check_buy_signal close (Tradebot.IndicatorSnapshot.mk (some a) (some d) (some r))
        = true
      ∧ Tradebot.check_sell_signal close (Tradebot.IndicatorSnapshot.mk (some a) (some d) (some r))
        = true) := by
  rintro ⟨hb, hs⟩
  simp [Tradebot.check_buy_signal, Tradebot.check_sell_signal, Tradebot.lower_band,
    Tradebot.upper_band, Tradebot.bollinger_std_dev] at hb hs
  linarith [hb.1, hs.1, hd]

/-- Witness for C10_buy_sell_mutually_exclusive at SMA = 100, STD = 2,
RSI = 50, close = 95. -/
theorem C10_witness :
    ¬(Tradebot.check_buy_signal 95 (Tradebot.IndicatorSnapshot.mk (some 100) (some 2) (some 50))
        = true
      ∧ Tradebot.check_sell_signal 95 (Tradebot.IndicatorSnapshot.mk (some 100) (some 2) (some 50))
        = true) :=
  C10_buy_sell_mutually_exclusive 100 2 50 95 (by norm_num)
